import Mathlib

/-
Verification of the viamrtsp RTSP camera module (rtsp.go) against its
natural-language specification.

The embedding models the per-packet H.264/H.265 decode pipelines
(initH264 / initH265), the reconnect logic (reconnectClient,
closeConnection), the passthrough packet handler (publishToWebRTC and the
combined onPacketRTP), the per-subscriber passthrough encoding function
built in SubscribeRTP (unitSubscriberFunc), and the subscription registry
(Unsubscribe).

External collaborators (the gortsplib RTP depacketizer, the ffmpeg raw
decoder, the format processor, the RTP encoder, the subscriber callback)
are modelled as oracle functions: the theorems quantify over all of their
behaviours.
-/

namespace Viamrtsp

/-- An RTP packet: the 32-bit RTP timestamp and an opaque payload
(Go rtp.Packet; only the fields read by this module are kept). -/
structure RTPPkt where
  timestamp : Nat
  payload : List Nat
deriving DecidableEq, Repr

/-- A NALU is a byte sequence (Go []byte). -/
abbrev NALU := List Nat

/-- An access unit: an ordered list of NALUs (Go [][]byte). -/
abbrev AccessUnit := List NALU

/-- H.264 NALU type: low 5 bits of the first byte. -/
def h264NALUType (n : NALU) : Nat := n.headD 0 % 32

/-- mediacommon h264.IDRPresent: true iff some NALU of the access unit has
type 5 (IDR, instantaneous refresh). -/
def h264IDRPresent (au : AccessUnit) : Bool :=
  au.any (fun n => h264NALUType n == 5)

/-- H.265 NALU type: bits 1..6 of the first byte. -/
def h265NALUType (n : NALU) : Nat := n.headD 0 / 2 % 64

/-- H.265 IRAP (keyframe) present: some NALU has type in 16..23
(BLA/IDR/CRA instantaneous-refresh types). -/
def h265IRAPPresent (au : AccessUnit) : Bool :=
  au.any (fun n => decide (16 ≤ h265NALUType n ∧ h265NALUType n ≤ 23))

/-- Result of rtpDec.Decode (the gortsplib depacketizer, external to this
module): a benign continuation error (ErrNonStartingPacketAndNoPrevious or
ErrMorePacketsNeeded), any other error, or a completed access unit. -/
inductive DepacketResult
  | benignErr
  | otherErr
  | au (a : AccessUnit)

/-- The depacketizer as an oracle over packets. -/
abbrev Depacketizer := RTPPkt → DepacketResult

/-- rc.rawDecoder.decode as an oracle: a NALU yields either a decode error
or an optional image (nil images are allowed and simply not stored).
Images are opaque, modelled as naturals. -/
abbrev RawDecoder := NALU → Except Unit (Option Nat)

/-- The NALU loop shared by initH264.storeImage and the initH265 packet
callback: feed the NALUs of one access unit to the raw decoder in order,
starting from the current Frame Slot contents `cur`; a decode error
abandons the rest of the unit (images already stored stay); every non-nil
image overwrites `cur`. Returns the final Frame Slot contents. -/
def decodeAUFold (dec : RawDecoder) (cur : Option Nat) : AccessUnit → Option Nat
  | [] => cur
  | n :: rest =>
    match dec n with
    | .error _ => cur
    | .ok none => decodeAUFold dec cur rest
    | .ok (some img) => decodeAUFold dec (some img) rest

/-- State of the H.264 decode pipeline closure (initH264): the keyframe
gate `iFrameReceived` and the Frame Slot `latestFrame` (rc.latestFrame).
The log-only flag waitingForIframeLogged is omitted. -/
structure H264Pipeline where
  iFrameReceived : Bool
  latestFrame : Option Nat
deriving DecidableEq, Repr

/-- Fresh H.264 pipeline on a fresh camera: gate false, Frame Slot empty. -/
def h264PipelineInit : H264Pipeline := { iFrameReceived := false, latestFrame := none }

/-- The body of storeImage once an access unit `a` has been produced:
while the gate is down and the unit has no IDR, the unit is discarded;
otherwise the gate is raised and the NALUs are decoded into the slot. -/
def h264ProcessAU (dec : RawDecoder) (s : H264Pipeline) (a : AccessUnit) : H264Pipeline :=
  if !s.iFrameReceived && !h264IDRPresent a then s
  else { iFrameReceived := true, latestFrame := decodeAUFold dec s.latestFrame a }

/-- storeImage from initH264: depacketize the packet (benign and other
errors produce no unit and leave the state untouched), then process the
access unit through the keyframe gate. -/
def storeImage (rtpDec : Depacketizer) (dec : RawDecoder) (s : H264Pipeline) (pkt : RTPPkt) :
    H264Pipeline :=
  match rtpDec pkt with
  | .benignErr => s
  | .otherErr => s
  | .au a => h264ProcessAU dec s a

/-- Run the H.264 pipeline over a packet sequence in arrival order. -/
def h264Run (rtpDec : Depacketizer) (dec : RawDecoder) (s : H264Pipeline)
    (ps : List RTPPkt) : H264Pipeline :=
  ps.foldl (storeImage rtpDec dec) s

/-- State of the H.265 packet callback (initH265): only the Frame Slot;
the code keeps no keyframe gate on this path. -/
structure H265Pipeline where
  latestFrame : Option Nat
deriving DecidableEq, Repr

/-- Fresh H.265 pipeline on a fresh camera: Frame Slot empty. -/
def h265PipelineInit : H265Pipeline := { latestFrame := none }

/-- The OnPacketRTP callback registered by initH265: depacketize and, with
no keyframe gate, decode every NALU of the produced unit into the slot. -/
def h265OnPacketRTP (rtpDec : Depacketizer) (dec : RawDecoder) (s : H265Pipeline)
    (pkt : RTPPkt) : H265Pipeline :=
  match rtpDec pkt with
  | .benignErr => s
  | .otherErr => s
  | .au a => { latestFrame := decodeAUFold dec s.latestFrame a }

/-- Run the H.265 pipeline over a packet sequence in arrival order. -/
def h265Run (rtpDec : Depacketizer) (dec : RawDecoder) (s : H265Pipeline)
    (ps : List RTPPkt) : H265Pipeline :=
  ps.foldl (h265OnPacketRTP rtpDec dec) s

/-- The access unit produced by one packet, if any. -/
def producedAU (rtpDec : Depacketizer) (pkt : RTPPkt) : Option AccessUnit :=
  match rtpDec pkt with
  | .benignErr => none
  | .otherErr => none
  | .au a => some a

/-- The access units produced by a packet sequence, in order. -/
def producedAUs (rtpDec : Depacketizer) (ps : List RTPPkt) : List AccessUnit :=
  ps.filterMap (producedAU rtpDec)

/-- Whether any access unit depacketized from the packet history contained
an H.265 instantaneous-refresh (IRAP) unit: the keyframe-gate condition of
the spec, evaluated on the H.265 packet history. -/
def h265KeyframeObserved (rtpDec : Depacketizer) (ps : List RTPPkt) : Bool :=
  (producedAUs rtpDec ps).any h265IRAPPresent

-- Helper lemmas for the keyframe-gate invariant.

lemma storeImage_gate_false (rtpDec : Depacketizer) (dec : RawDecoder) (s : H264Pipeline)
    (pkt : RTPPkt) (h : (storeImage rtpDec dec s pkt).iFrameReceived = false) :
    (storeImage rtpDec dec s pkt).latestFrame = s.latestFrame := by
  cases hd : rtpDec pkt with
  | benignErr => simp [storeImage, hd]
  | otherErr => simp [storeImage, hd]
  | au a =>
    by_cases hc : (!s.iFrameReceived && !h264IDRPresent a) = true
    · simp [storeImage, hd, h264ProcessAU, hc]
    · simp [storeImage, hd, h264ProcessAU, hc] at h

lemma storeImage_gate_mono (rtpDec : Depacketizer) (dec : RawDecoder) (s : H264Pipeline)
    (pkt : RTPPkt) (h : s.iFrameReceived = true) :
    (storeImage rtpDec dec s pkt).iFrameReceived = true := by
  cases hd : rtpDec pkt with
  | benignErr => simpa [storeImage, hd] using h
  | otherErr => simpa [storeImage, hd] using h
  | au a =>
    by_cases hc : (!s.iFrameReceived && !h264IDRPresent a) = true
    · simpa [storeImage, hd, h264ProcessAU, hc] using h
    · simp [storeImage, hd, h264ProcessAU, hc]

lemma h264Run_gate_mono (rtpDec : Depacketizer) (dec : RawDecoder) (ps : List RTPPkt) :
    ∀ s : H264Pipeline, s.iFrameReceived = true →
      (h264Run rtpDec dec s ps).iFrameReceived = true := by
  induction ps with
  | nil => intro s h; exact h
  | cons p ps ih =>
    intro s h
    exact ih (storeImage rtpDec dec s p) (storeImage_gate_mono rtpDec dec s p h)

lemma h264Run_gate_false (rtpDec : Depacketizer) (dec : RawDecoder) (ps : List RTPPkt) :
    ∀ s : H264Pipeline, (h264Run rtpDec dec s ps).iFrameReceived = false →
      (h264Run rtpDec dec s ps).latestFrame = s.latestFrame := by
  induction ps with
  | nil => intro s _; rfl
  | cons p ps ih =>
    intro s h
    have hstep : (storeImage rtpDec dec s p).iFrameReceived = false := by
      by_contra hc
      have ht : (storeImage rtpDec dec s p).iFrameReceived = true := by
        cases hx : (storeImage rtpDec dec s p).iFrameReceived
        · exact absurd hx hc
        · rfl
      have := h264Run_gate_mono rtpDec dec ps (storeImage rtpDec dec s p) ht
      rw [show h264Run rtpDec dec s (p :: ps)
            = h264Run rtpDec dec (storeImage rtpDec dec s p) ps from rfl] at h
      rw [this] at h
      exact Bool.true_eq_false.mp h
    have hrun := ih (storeImage rtpDec dec s p) h
    rw [show h264Run rtpDec dec s (p :: ps)
          = h264Run rtpDec dec (storeImage rtpDec dec s p) ps from rfl]
    rw [hrun]
    exact storeImage_gate_false rtpDec dec s p hstep

/-- Claim C1 (amended). For the H.264 decode pipeline, in every reachable
state, no decoded image has been stored into the Frame Slot while the
pipeline's keyframe gate is still false: from any starting state, if the
gate is still down after processing a packet sequence, the Frame Slot is
untouched. The H.265 pipeline applies no keyframe gate: whenever a packet
depacketizes into an access unit, its NALUs are decoded into the Frame
Slot unconditionally. -/
theorem h264_keyframe_gate_invariant :
    (∀ (rtpDec : Depacketizer) (dec : RawDecoder) (s : H264Pipeline) (ps : List RTPPkt),
      (h264Run rtpDec dec s ps).iFrameReceived = false →
        (h264Run rtpDec dec s ps).latestFrame = s.latestFrame) ∧
    (∀ (rtpDec : Depacketizer) (dec : RawDecoder) (s : H265Pipeline) (pkt : RTPPkt)
      (a : AccessUnit), rtpDec pkt = .au a →
        (h265OnPacketRTP rtpDec dec s pkt).latestFrame = decodeAUFold dec s.latestFrame a) := by
  constructor
  · intro rtpDec dec s ps h
    exact h264Run_gate_false rtpDec dec ps s h
  · intro rtpDec dec s pkt a ha
    unfold h265OnPacketRTP
    rw [ha]

-- Concrete data for the C1 witness and counterexample.

/-- Depacketizer oracle that always reports ErrMorePacketsNeeded. -/
def rtpDecMore : Depacketizer := fun _ => .benignErr

/-- Depacketizer oracle that completes every packet into the single-NALU
access unit [[2]] (H.264 type 2 and H.265 type 1: not a keyframe). -/
def rtpDecNonKey : Depacketizer := fun _ => .au [[2]]

/-- Raw decoder oracle that decodes every NALU to the image 7. -/
def decSeven : RawDecoder := fun _ => .ok (some 7)

/-- Raw decoder oracle that never produces an image. -/
def decNone : RawDecoder := fun _ => .ok none

/-- A concrete packet. -/
def pktZero : RTPPkt := { timestamp := 0, payload := [] }

/-- Witness for C1: concrete run with the gate still down leaves the Frame
Slot exactly as it started, and a concrete H.265 packet decodes into the
slot. -/
theorem h264_keyframe_gate_invariant_witness :
    (h264Run rtpDecMore decSeven h264PipelineInit [pktZero]).latestFrame
        = h264PipelineInit.latestFrame ∧
    (h265OnPacketRTP rtpDecNonKey decSeven h265PipelineInit pktZero).latestFrame
        = decodeAUFold decSeven h265PipelineInit.latestFrame [[2]] :=
  ⟨h264_keyframe_gate_invariant.1 rtpDecMore decSeven h264PipelineInit [pktZero] rfl,
   h264_keyframe_gate_invariant.2 rtpDecNonKey decSeven h265PipelineInit pktZero [[2]] rfl⟩

/-- Counterexample to C1 as stated: on the H.265 pipeline there is no
keyframe gate. A fresh H.265 pipeline fed one packet that depacketizes to
a non-IRAP access unit (no instantaneous-refresh unit has ever been
observed, so the spec's gate is false) stores a decoded image into the
Frame Slot. -/
theorem h265_stores_before_keyframe_counterexample :
    h265KeyframeObserved rtpDecNonKey [pktZero] = false ∧
    (h265Run rtpDecNonKey decSeven h265PipelineInit [pktZero]).latestFrame = some 7 := by
  constructor
  · rfl
  · rfl

-- Running the H.264 pipeline over packets is running h264ProcessAU over
-- the access units those packets depacketize to.

/-- Run the keyframe-gated access-unit processing over a unit sequence. -/
def h264RunAUs (dec : RawDecoder) (s : H264Pipeline) (aus : List AccessUnit) : H264Pipeline :=
  aus.foldl (h264ProcessAU dec) s

lemma h264Run_eq_runAUs (rtpDec : Depacketizer) (dec : RawDecoder) (ps : List RTPPkt) :
    ∀ s : H264Pipeline, h264Run rtpDec dec s ps = h264RunAUs dec s (producedAUs rtpDec ps) := by
  induction ps with
  | nil => intro s; rfl
  | cons p ps ih =>
    intro s
    cases hd : rtpDec p with
    | benignErr =>
      show h264Run rtpDec dec (storeImage rtpDec dec s p) ps = _
      rw [ih (storeImage rtpDec dec s p)]
      simp [storeImage, hd, producedAUs, producedAU]
    | otherErr =>
      show h264Run rtpDec dec (storeImage rtpDec dec s p) ps = _
      rw [ih (storeImage rtpDec dec s p)]
      simp [storeImage, hd, producedAUs, producedAU]
    | au a =>
      show h264Run rtpDec dec (storeImage rtpDec dec s p) ps = _
      rw [ih (storeImage rtpDec dec s p)]
      simp [storeImage, hd, producedAUs, producedAU, h264RunAUs]

lemma h264RunAUs_nonIDR (dec : RawDecoder) (aus : List AccessUnit)
    (h : ∀ au ∈ aus, h264IDRPresent au = false) :
    h264RunAUs dec h264PipelineInit aus = h264PipelineInit := by
  induction aus with
  | nil => rfl
  | cons a aus ih =>
    have ha : h264IDRPresent a = false := h a (List.mem_cons_self a aus)
    have hstep : h264ProcessAU dec h264PipelineInit a = h264PipelineInit := by
      simp [h264ProcessAU, h264PipelineInit, ha]
    show h264RunAUs dec (h264ProcessAU dec h264PipelineInit a) aus = h264PipelineInit
    rw [hstep]
    exact ih (fun au hau => h au (List.mem_cons_of_mem a hau))

/-- Claim C6. A freshly constructed H.264 pipeline fed packets that
depacketize into N complete non-keyframe access units followed by one
keyframe access unit: the Frame Slot stays empty through every prefix of
the N non-keyframe units, and on the keyframe unit the pipeline decodes
the unit into the slot, which (the decode yielding an image) becomes
populated. -/
theorem h264_slot_empty_until_keyframe (rtpDec : Depacketizer) (dec : RawDecoder)
    (ps qs : List RTPPkt) (k : AccessUnit)
    (hps : ∀ au ∈ producedAUs rtpDec ps, h264IDRPresent au = false)
    (hqs : producedAUs rtpDec qs = [k])
    (hk : h264IDRPresent k = true)
    (hdec : (decodeAUFold dec none k).isSome = true) :
    (∀ n : Nat, (h264Run rtpDec dec h264PipelineInit (ps.take n)).latestFrame = none) ∧
    (h264Run rtpDec dec h264PipelineInit (ps ++ qs)).latestFrame = decodeAUFold dec none k ∧
    ((h264Run rtpDec dec h264PipelineInit (ps ++ qs)).latestFrame).isSome = true := by
  have hfull : ∀ rs : List RTPPkt,
      (∀ au ∈ producedAUs rtpDec rs, h264IDRPresent au = false) →
      h264Run rtpDec dec h264PipelineInit rs = h264PipelineInit := by
    intro rs hrs
    rw [h264Run_eq_runAUs rtpDec dec rs h264PipelineInit]
    exact h264RunAUs_nonIDR dec (producedAUs rtpDec rs) hrs
  have hkey : h264Run rtpDec dec h264PipelineInit (ps ++ qs)
      = { iFrameReceived := true, latestFrame := decodeAUFold dec none k } := by
    rw [h264Run_eq_runAUs rtpDec dec (ps ++ qs) h264PipelineInit]
    have happ : producedAUs rtpDec (ps ++ qs)
        = producedAUs rtpDec ps ++ producedAUs rtpDec qs := by
      simp [producedAUs]
    rw [happ, hqs]
    show h264RunAUs dec h264PipelineInit (producedAUs rtpDec ps ++ [k]) = _
    rw [show h264RunAUs dec h264PipelineInit (producedAUs rtpDec ps ++ [k])
          = h264RunAUs dec (h264RunAUs dec h264PipelineInit (producedAUs rtpDec ps)) [k] by
        simp [h264RunAUs]]
    rw [h264RunAUs_nonIDR dec (producedAUs rtpDec ps) hps]
    simp [h264RunAUs, h264ProcessAU, h264PipelineInit, hk]
  refine ⟨?_, ?_, ?_⟩
  · intro n
    have hsub : ∀ au ∈ producedAUs rtpDec (ps.take n), h264IDRPresent au = false := by
      intro au hau
      apply hps
      have : List.Sublist (producedAUs rtpDec (ps.take n)) (producedAUs rtpDec ps) :=
        List.Sublist.filterMap (producedAU rtpDec) (List.take_sublist n ps)
      exact this.mem hau
    rw [hfull (ps.take n) hsub]
    rfl
  · rw [hkey]
  · rw [hkey]
    exact hdec

/-- Depacketizer oracle that completes every packet into the access unit
consisting of the packet payload as a single NALU. -/
def rtpDecPayload : Depacketizer := fun p => .au [p.payload]

/-- Witness for C6: two non-keyframe packets then an IDR packet (NALU type
5), with a decoder producing image 3: the slot is empty through the
non-keyframe prefix and populated after the keyframe. -/
theorem h264_slot_empty_until_keyframe_witness :
    (h264Run rtpDecPayload (fun _ => .ok (some 3)) h264PipelineInit
      ([⟨0, [2]⟩, ⟨0, [2]⟩].take 2)).latestFrame = none ∧
    (h264Run rtpDecPayload (fun _ => .ok (some 3)) h264PipelineInit
      ([⟨0, [2]⟩, ⟨0, [2]⟩] ++ [⟨0, [5]⟩])).latestFrame = some 3 := by
  have h := h264_slot_empty_until_keyframe rtpDecPayload (fun _ => .ok (some 3))
    [⟨0, [2]⟩, ⟨0, [2]⟩] [⟨0, [5]⟩] [[5]]
    (by decide) (by decide) (by decide) (by decide)
  exact ⟨h.1 2, h.2.1⟩

-- Session construction and teardown (reconnectClient / closeConnection).

/-- The connection-related fields of rtspCamera: whether rc.client is
non-nil, whether rc.rawDecoder is non-nil, and whether a passthrough
format processor is alive. The format processor is referenced only by the
packet callback registered on the client, so it lives and dies with the
client handle. -/
structure CamConn where
  client : Bool
  rawDecoder : Bool
  fpActive : Bool
deriving DecidableEq, Repr

/-- closeConnection: close and nil out the client (releasing its packet
callback and with it the format processor) and the raw decoder. -/
def closeConnection (s : CamConn) : CamConn :=
  { client := false, rawDecoder := false, fpActive := false }

/-- Codec reported by getStreamInfo. -/
inductive CodecInfo
  | h264
  | h265
  | unsupported
deriving DecidableEq, Repr

/-- Outcomes of the external sub-steps of one reconnect attempt: transport
start, DESCRIBE, getStreamInfo (none = the query itself failed), the
track lookups, decoder constructions, format-processor construction,
SETUP and PLAY. -/
structure ReconnectEnv where
  startOk : Bool
  describeOk : Bool
  streamInfo : Option CodecInfo
  h264TrackFound : Bool
  h264CreateDecoderOk : Bool
  newH264DecoderOk : Bool
  fpNewOk : Bool
  h264SetupOk : Bool
  h265TrackFound : Bool
  h265SetupOk : Bool
  h265CreateDecoderOk : Bool
  newH265DecoderOk : Bool
  playOk : Bool
deriving DecidableEq, Repr

/-- The distinct error returns of reconnectClient and its callees. -/
inductive ReconnectErr
  | startErr
  | describeErr
  | streamInfoErr
  | codecNotSupported
  | h264TrackNotFound
  | h264CreateDecoderErr
  | newH264DecoderErr
  | fpNewErr
  | h264SetupErr
  | h265Passthrough
  | h265TrackNotFound
  | h265SetupErr
  | h265CreateDecoderErr
  | newH265DecoderErr
  | playErr
deriving DecidableEq, Repr

/-- initH264: find the track, create the RTP depacketizer, create the raw
decoder (rc.rawDecoder becomes non-nil), feed SPS/PPS (log only), build
the format processor when passthrough is enabled, SETUP the track,
register the packet callback. -/
def initH264 (env : ReconnectEnv) (passthrough : Bool) (s : CamConn) :
    Except ReconnectErr Unit × CamConn :=
  if !env.h264TrackFound then (.error .h264TrackNotFound, s)
  else if !env.h264CreateDecoderOk then (.error .h264CreateDecoderErr, s)
  else if !env.newH264DecoderOk then (.error .newH264DecoderErr, s)
  else
    let s1 : CamConn := { s with rawDecoder := true }
    if passthrough && !env.fpNewOk then (.error .fpNewErr, s1)
    else
      let s2 : CamConn := if passthrough then { s1 with fpActive := true } else s1
      if !env.h264SetupOk then (.error .h264SetupErr, s2)
      else (.ok (), s2)

/-- initH265: reject passthrough immediately, find the track, SETUP,
create the RTP depacketizer, create the raw decoder (rc.rawDecoder
becomes non-nil), feed VPS/SPS/PPS (log only), register the packet
callback. -/
def initH265 (env : ReconnectEnv) (passthrough : Bool) (s : CamConn) :
    Except ReconnectErr Unit × CamConn :=
  if passthrough then (.error .h265Passthrough, s)
  else if !env.h265TrackFound then (.error .h265TrackNotFound, s)
  else if !env.h265SetupOk then (.error .h265SetupErr, s)
  else if !env.h265CreateDecoderOk then (.error .h265CreateDecoderErr, s)
  else if !env.newH265DecoderOk then (.error .newH265DecoderErr, s)
  else (.ok (), { s with rawDecoder := true })

/-- The part of reconnectClient covered by the deferred cleanup: DESCRIBE,
getStreamInfo, codec dispatch to initH264/initH265, then PLAY. -/
def reconnectBody (env : ReconnectEnv) (passthrough : Bool) (s : CamConn) :
    Except ReconnectErr Unit × CamConn :=
  if !env.describeOk then (.error .describeErr, s)
  else
    match env.streamInfo with
    | none => (.error .streamInfoErr, s)
    | some .h264 =>
      match initH264 env passthrough s with
      | (.error e, s1) => (.error e, s1)
      | (.ok _, s1) => if !env.playOk then (.error .playErr, s1) else (.ok (), s1)
    | some .h265 =>
      match initH265 env passthrough s with
      | (.error e, s1) => (.error e, s1)
      | (.ok _, s1) => if !env.playOk then (.error .playErr, s1) else (.ok (), s1)
    | some .unsupported => (.error .codecNotSupported, s)

/-- reconnectClient: close the previous connection, install a fresh client
handle, start the transport (note: the deferred cleanup that closes the
connection when the attempt is unsuccessful is registered only after the
Start error check, so a Start failure returns with the fresh client still
installed), then run the body under the deferred cleanup. -/
def reconnectClient (env : ReconnectEnv) (passthrough : Bool) (s0 : CamConn) :
    Except ReconnectErr Unit × CamConn :=
  let s1 := closeConnection s0
  let s2 : CamConn := { s1 with client := true }
  if !env.startOk then (.error .startErr, s2)
  else
    match reconnectBody env passthrough s2 with
    | (.error e, s3) => (.error e, closeConnection s3)
    | (.ok _, s3) => (.ok (), s3)

/-- Claim C3. When passthrough is enabled and the source advertises only
an H.265 track (the transport start and DESCRIBE having succeeded, so
codec dispatch is reached), reconnectClient returns the
passthrough-on-H265 configuration error and the final state is fully torn
down: no client handle, no raw decoder, and no passthrough format
processor exist. -/
theorem reconnect_h265_passthrough_is_error (env : ReconnectEnv) (s : CamConn)
    (hstart : env.startOk = true) (hdesc : env.describeOk = true)
    (hinfo : env.streamInfo = some CodecInfo.h265) :
    reconnectClient env true s =
      (.error .h265Passthrough, { client := false, rawDecoder := false, fpActive := false }) := by
  simp [reconnectClient, reconnectBody, initH265, closeConnection, hstart, hdesc, hinfo]

/-- Witness for C3: a concrete all-healthy H.265 source with passthrough
requested fails with the configuration error and leaves nothing created. -/
theorem reconnect_h265_passthrough_is_error_witness :
    reconnectClient
      { startOk := true, describeOk := true, streamInfo := some CodecInfo.h265,
        h264TrackFound := true, h264CreateDecoderOk := true, newH264DecoderOk := true,
        fpNewOk := true, h264SetupOk := true, h265TrackFound := true, h265SetupOk := true,
        h265CreateDecoderOk := true, newH265DecoderOk := true, playOk := true }
      true { client := true, rawDecoder := true, fpActive := false } =
      (.error .h265Passthrough, { client := false, rawDecoder := false, fpActive := false }) :=
  reconnect_h265_passthrough_is_error _ _ rfl rfl rfl

/-- Claim C4 (the code diverges). The spec says every failing sub-step of
reconnectClient leaves the session fully torn down, with no client handle
registered. But the deferred cleanup is registered only after the
transport-start error check: when Start fails, reconnectClient returns the
error with the freshly installed client handle still registered
(client = true), although the decoder is indeed gone. -/
theorem reconnect_start_failure_leaves_client :
    reconnectClient
      { startOk := false, describeOk := true, streamInfo := some CodecInfo.h264,
        h264TrackFound := true, h264CreateDecoderOk := true, newH264DecoderOk := true,
        fpNewOk := true, h264SetupOk := true, h265TrackFound := true, h265SetupOk := true,
        h265CreateDecoderOk := true, newH265DecoderOk := true, playOk := true }
      false { client := false, rawDecoder := false, fpActive := false } =
      (.error .startErr, { client := true, rawDecoder := false, fpActive := false }) := by
  rfl

-- The passthrough unit and the combined H.264 packet handler.

/-- A unit.H264 as handed to subscribers by the format processor: the
access unit (a nil Go slice is none), the presentation timestamp
(time.Duration, an integer), and the originating RTP packets. The NTP
field is carried but never read downstream and is omitted. -/
structure H264Unit where
  au : Option AccessUnit
  pts : Int
  rtpPackets : List RTPPkt
deriving DecidableEq, Repr

/-- The unit.Unit interface value received by a subscriber: either a
unit.H264 or some other concrete unit type (the type assertion in
unitSubscriberFunc fails on the latter). -/
inductive PTUnit
  | h264 (u : H264Unit)
  | otherUnit
deriving DecidableEq, Repr

/-- client.PacketPTS as an oracle: the presentation timestamp of a packet,
if the client can compute one. -/
abbrev PTSOracle := RTPPkt → Option Int

/-- fp.ProcessRTPPacket as an oracle over the packet and its PTS (the NTP
wall-clock argument does not influence the fields this module reads):
either a processing error or a unit for the subscribers. -/
abbrev FormatProcessor := RTPPkt → Int → Except Unit H264Unit

/-- The camera state seen by the combined H.264 packet handler: the decode
pipeline closure state and the ids of the registered subscriptions
(rc.subAndCBByID keys). -/
structure CamStreamState where
  pipeline : H264Pipeline
  subs : List Nat
deriving DecidableEq, Repr

/-- publishToWebRTC from initH264: look up the packet PTS (give up
silently if unavailable), run the format processor (give up silently on
error), and hand the produced unit to every registered subscription's
publish path. Returns the publish attempts as (subscription id, unit)
pairs. -/
def publishToWebRTC (ptsOf : PTSOracle) (fp : FormatProcessor) (subs : List Nat)
    (pkt : RTPPkt) : List (Nat × H264Unit) :=
  match ptsOf pkt with
  | none => []
  | some pts =>
    match fp pkt pts with
    | .error _ => []
    | .ok u =>
      if subs.isEmpty then []
      else subs.map (fun id => (id, u))

/-- The two sub-handlers the per-packet callback can invoke. -/
inductive PipelineStep
  | passthrough
  | rawDecode
deriving DecidableEq, Repr

/-- The statement sequence of the onPacketRTP callback installed by
initH264: without passthrough it is storeImage alone; with passthrough
enabled it is publishToWebRTC(pkt) followed by storeImage(pkt). -/
def h264HandlerSteps (passthroughEnabled : Bool) : List PipelineStep :=
  if passthroughEnabled then [.passthrough, .rawDecode] else [.rawDecode]

/-- Execute one sub-handler: passthrough appends its publish attempts,
raw decode advances the pipeline state. -/
def runH264Step (rtpDec : Depacketizer) (dec : RawDecoder) (ptsOf : PTSOracle)
    (fp : FormatProcessor) (pkt : RTPPkt)
    (acc : CamStreamState × List (Nat × H264Unit)) :
    PipelineStep → CamStreamState × List (Nat × H264Unit)
  | .passthrough => (acc.1, acc.2 ++ publishToWebRTC ptsOf fp acc.1.subs pkt)
  | .rawDecode =>
    ({ acc.1 with pipeline := storeImage rtpDec dec acc.1.pipeline pkt }, acc.2)

/-- The combined onPacketRTP callback for one inbound packet: run the
handler statements in program order, returning the new state and all
publish attempts made. -/
def onPacketRTPH264 (rtpDec : Depacketizer) (dec : RawDecoder) (ptsOf : PTSOracle)
    (fp : FormatProcessor) (passthroughEnabled : Bool) (s : CamStreamState) (pkt : RTPPkt) :
    CamStreamState × List (Nat × H264Unit) :=
  (h264HandlerSteps passthroughEnabled).foldl (runH264Step rtpDec dec ptsOf fp pkt) (s, [])

/-- Claim C2 (amended). With passthrough enabled, the per-packet handler
hands the packet to the Passthrough Encoder FIRST and to the raw decode
path SECOND (the opposite order of the claim), and the raw decode step is
executed for every packet regardless of the passthrough outcome: the
final pipeline state is exactly storeImage applied to the incoming state,
for every possible PTS lookup and format-processor behaviour, including
failing ones. -/
theorem onPacketRTP_passthrough_first (rtpDec : Depacketizer) (dec : RawDecoder)
    (ptsOf : PTSOracle) (fp : FormatProcessor) (s : CamStreamState) (pkt : RTPPkt) :
    h264HandlerSteps true = [PipelineStep.passthrough, PipelineStep.rawDecode] ∧
    onPacketRTPH264 rtpDec dec ptsOf fp true s pkt =
      ({ pipeline := storeImage rtpDec dec s.pipeline pkt, subs := s.subs },
        publishToWebRTC ptsOf fp s.subs pkt) := by
  constructor
  · rfl
  · simp [onPacketRTPH264, h264HandlerSteps, runH264Step]

/-- Counterexample to C2 as stated: the claim requires the raw decode step
first and the passthrough step second, but the handler statement sequence
is passthrough first, raw decode second. -/
theorem onPacketRTP_order_counterexample :
    h264HandlerSteps true = [PipelineStep.passthrough, PipelineStep.rawDecode] ∧
    h264HandlerSteps true ≠ [PipelineStep.rawDecode, PipelineStep.passthrough] := by
  constructor
  · rfl
  · decide

/-- Claim C10. Passthrough fan-out is independent of the keyframe gate:
whenever the PTS lookup and the format processor succeed for a packet, the
handler hands the produced unit to every registered subscription, even
though the pipeline's keyframe gate is still false. -/
theorem passthrough_fanout_ignores_gate (rtpDec : Depacketizer) (dec : RawDecoder)
    (ptsOf : PTSOracle) (fp : FormatProcessor) (s : CamStreamState) (pkt : RTPPkt)
    (pts : Int) (u : H264Unit)
    (hgate : s.pipeline.iFrameReceived = false)
    (hpts : ptsOf pkt = some pts) (hfp : fp pkt pts = .ok u) :
    (onPacketRTPH264 rtpDec dec ptsOf fp true s pkt).2 = s.subs.map (fun id => (id, u)) := by
  have h : publishToWebRTC ptsOf fp s.subs pkt = s.subs.map (fun id => (id, u)) := by
    by_cases hs : s.subs.isEmpty
    · simp [publishToWebRTC, hpts, hfp, hs, List.isEmpty_iff.mp hs]
    · simp [publishToWebRTC, hpts, hfp, hs]
  simp [onPacketRTPH264, h264HandlerSteps, runH264Step, h]

/-- A concrete unit for the witnesses below. -/
def unitOne : H264Unit := { au := some [[1]], pts := 0, rtpPackets := [pktZero] }

/-- Witness for C10: with two registered subscriptions, a fresh gate-down
pipeline and a successfully processed packet, both subscriptions receive
the unit. -/
theorem passthrough_fanout_ignores_gate_witness :
    (onPacketRTPH264 rtpDecMore decSeven (fun _ => some 0) (fun _ _ => .ok unitOne) true
      { pipeline := h264PipelineInit, subs := [1, 2] } pktZero).2 =
      [(1, unitOne), (2, unitOne)] :=
  passthrough_fanout_ignores_gate rtpDecMore decSeven (fun _ => some 0)
    (fun _ _ => .ok unitOne) { pipeline := h264PipelineInit, subs := [1, 2] } pktZero 0 unitOne
    rfl rfl rfl

-- The per-subscriber passthrough encoding function (SubscribeRTP).

/-- The errors unitSubscriberFunc can return: the unit.H264 type assertion
failure, the B-frames ordering error, or an error returned by the
subscriber's packetsCB callback. -/
inductive SubErr
  | typeConversion
  | bFrames
  | cbError
deriving DecidableEq, Repr

/-- The closure state of one subscriber's unitSubscriberFunc: the
firstReceived flag and lastPTS (lastPTS's Go zero value is 0). -/
structure SubscriberState where
  firstReceived : Bool
  lastPTS : Int
deriving DecidableEq, Repr

/-- Fresh subscriber state as created in SubscribeRTP. -/
def subscriberInit : SubscriberState := { firstReceived := false, lastPTS := 0 }

/-- encoder.Encode as an oracle: an access unit yields an error or a
(possibly empty) list of RTP packets. -/
abbrev H264Encoder := AccessUnit → Except Unit (List RTPPkt)

/-- The subscriber's packetsCB as an oracle: accepts the batch or fails. -/
abbrev PacketCallback := List RTPPkt → Except Unit Unit

/-- The tail of unitSubscriberFunc once the ordering gate has been passed
with updated state st: encode the access unit (an encode error drops the
unit silently), skip the callback when no packets were produced, otherwise
add the timestamp of the unit's first original transport packet to every
packet (32-bit RTP timestamp arithmetic; Go indexes RTPPackets[0], which
panics on an empty slice — theorems that reach this point assume the slice
is non-empty) and hand the batch to packetsCB. The third component is the
batch passed to the callback (none = callback not invoked). -/
def encodeAndDeliver (encoder : H264Encoder) (cb : PacketCallback) (tu : H264Unit)
    (au : AccessUnit) (st : SubscriberState) :
    Except SubErr Unit × SubscriberState × Option (List RTPPkt) :=
  match encoder au with
  | .error _ => (.ok (), st, none)
  | .ok pkts =>
    if pkts.isEmpty then (.ok (), st, none)
    else
      let base := (tu.rtpPackets.headD { timestamp := 0, payload := [] }).timestamp
      let out := pkts.map (fun p => { p with timestamp := (p.timestamp + base) % 2 ^ 32 })
      match cb out with
      | .error _ => (.error .cbError, st, some out)
      | .ok _ => (.ok (), st, some out)

/-- unitSubscriberFunc from SubscribeRTP: assert the unit is a unit.H264,
treat a nil access unit as a no-op, accept the first unit unconditionally
(setting firstReceived), reject a unit whose PTS is below the stored
lastPTS with the B-frames error (without touching lastPTS), otherwise
store the unit's PTS into lastPTS and encode and deliver. -/
def unitSubscriberFunc (encoder : H264Encoder) (cb : PacketCallback)
    (st : SubscriberState) (u : PTUnit) :
    Except SubErr Unit × SubscriberState × Option (List RTPPkt) :=
  match u with
  | .otherUnit => (.error .typeConversion, st, none)
  | .h264 tu =>
    match tu.au with
    | none => (.ok (), st, none)
    | some au =>
      if !st.firstReceived then
        encodeAndDeliver encoder cb tu au { firstReceived := true, lastPTS := tu.pts }
      else if tu.pts < st.lastPTS then
        (.error .bFrames, st, none)
      else
        encodeAndDeliver encoder cb tu au { st with lastPTS := tu.pts }

lemma encodeAndDeliver_state (encoder : H264Encoder) (cb : PacketCallback) (tu : H264Unit)
    (au : AccessUnit) (st : SubscriberState) :
    (encodeAndDeliver encoder cb tu au st).2.1 = st := by
  unfold encodeAndDeliver
  cases encoder au with
  | error e => rfl
  | ok pkts =>
    by_cases hp : pkts.isEmpty
    · simp [hp]
    · simp only [hp]
      cases cb (pkts.map (fun p =>
          { p with timestamp :=
              (p.timestamp + (tu.rtpPackets.headD { timestamp := 0, payload := [] }).timestamp)
                % 2 ^ 32 })) with
      | error e => simp
      | ok v => simp

lemma encodeAndDeliver_not_bFrames (encoder : H264Encoder) (cb : PacketCallback)
    (tu : H264Unit) (au : AccessUnit) (st : SubscriberState) :
    (encodeAndDeliver encoder cb tu au st).1 ≠ .error .bFrames := by
  unfold encodeAndDeliver
  cases encoder au with
  | error e => simp
  | ok pkts =>
    by_cases hp : pkts.isEmpty
    · simp [hp]
    · simp only [hp]
      cases cb (pkts.map (fun p =>
          { p with timestamp :=
              (p.timestamp + (tu.rtpPackets.headD { timestamp := 0, payload := [] }).timestamp)
                % 2 ^ 32 })) with
      | error e => simp
      | ok v => simp

/-- Claim C5. Once a first unit has been accepted (firstReceived is set),
a unit with an access unit whose PTS is below the stored lastPTS is
rejected with the ordering (B-frames) error, produces no packet batch and
no callback invocation, and leaves the subscriber state — in particular
lastPTS — unchanged; and a unit with PTS at or above the stored lastPTS is
processed normally: it goes to encode-and-deliver with lastPTS updated to
its own PTS, and never yields the ordering error. -/
theorem passthrough_rejects_decreasing_pts (encoder : H264Encoder) (cb : PacketCallback)
    (st : SubscriberState) (tu tu2 : H264Unit) (au au2 : AccessUnit)
    (hfr : st.firstReceived = true)
    (hau : tu.au = some au) (hlt : tu.pts < st.lastPTS)
    (hau2 : tu2.au = some au2) (hge : st.lastPTS ≤ tu2.pts) :
    unitSubscriberFunc encoder cb st (.h264 tu) = (.error .bFrames, st, none) ∧
    unitSubscriberFunc encoder cb st (.h264 tu2) =
      encodeAndDeliver encoder cb tu2 au2 { st with lastPTS := tu2.pts } ∧
    (unitSubscriberFunc encoder cb st (.h264 tu2)).1 ≠ .error .bFrames ∧
    (unitSubscriberFunc encoder cb st (.h264 tu2)).2.1.lastPTS = tu2.pts := by
  have h1 : unitSubscriberFunc encoder cb st (.h264 tu) = (.error .bFrames, st, none) := by
    simp [unitSubscriberFunc, hau, hfr, hlt]
  have h2 : unitSubscriberFunc encoder cb st (.h264 tu2) =
      encodeAndDeliver encoder cb tu2 au2 { st with lastPTS := tu2.pts } := by
    simp [unitSubscriberFunc, hau2, hfr, not_lt.mpr hge]
  refine ⟨h1, h2, ?_, ?_⟩
  · rw [h2]
    exact encodeAndDeliver_not_bFrames encoder cb tu2 au2 { st with lastPTS := tu2.pts }
  · rw [h2, encodeAndDeliver_state]

/-- Witness for C5: with lastPTS = 100, a unit at PTS 50 is rejected with
the ordering error and state untouched, and a unit at PTS 150 goes to
encode-and-deliver with lastPTS updated. -/
theorem passthrough_rejects_decreasing_pts_witness :
    unitSubscriberFunc (fun _ => .ok []) (fun _ => .ok ())
        { firstReceived := true, lastPTS := 100 }
        (.h264 { au := some [[1]], pts := 50, rtpPackets := [] }) =
      (.error .bFrames, { firstReceived := true, lastPTS := 100 }, none) ∧
    (unitSubscriberFunc (fun _ => .ok []) (fun _ => .ok ())
        { firstReceived := true, lastPTS := 100 }
        (.h264 { au := some [[1]], pts := 150, rtpPackets := [] })).2.1.lastPTS = 150 := by
  have h := passthrough_rejects_decreasing_pts (fun _ => .ok []) (fun _ => .ok ())
    { firstReceived := true, lastPTS := 100 }
    { au := some [[1]], pts := 50, rtpPackets := [] }
    { au := some [[1]], pts := 150, rtpPackets := [] }
    [[1]] [[1]] rfl rfl (by decide) rfl (by decide)
  exact ⟨h.1, h.2.2.2⟩

/-- Claim C7. For a unit with an access unit that passes the ordering
gate: when the encoder produces a non-empty packet list, the batch handed
to the subscriber's callback is exactly those packets with each timestamp
shifted by the timestamp of the unit's first original transport packet
(32-bit wrap-around addition); when the encoder produces zero packets, the
callback is not invoked at all. -/
theorem passthrough_timestamp_correction :
    (∀ (encoder : H264Encoder) (cb : PacketCallback) (st : SubscriberState)
      (tu : H264Unit) (au : AccessUnit) (pkts : List RTPPkt) (p0 : RTPPkt)
      (rest : List RTPPkt),
      tu.au = some au →
      (st.firstReceived = false ∨ st.lastPTS ≤ tu.pts) →
      encoder au = .ok pkts → pkts ≠ [] →
      tu.rtpPackets = p0 :: rest →
      (unitSubscriberFunc encoder cb st (.h264 tu)).2.2 =
        some (pkts.map (fun p =>
          { p with timestamp := (p.timestamp + p0.timestamp) % 2 ^ 32 }))) ∧
    (∀ (encoder : H264Encoder) (cb : PacketCallback) (st : SubscriberState)
      (tu : H264Unit) (au : AccessUnit),
      tu.au = some au →
      encoder au = .ok [] →
      (unitSubscriberFunc encoder cb st (.h264 tu)).2.2 = none) := by
  constructor
  · intro encoder cb st tu au pkts p0 rest hau hord henc hne hrtp
    have hdeliver : ∀ st2 : SubscriberState,
        (encodeAndDeliver encoder cb tu au st2).2.2 =
          some (pkts.map (fun p =>
            { p with timestamp := (p.timestamp + p0.timestamp) % 2 ^ 32 })) := by
      intro st2
      unfold encodeAndDeliver
      rw [henc]
      have hbase : tu.rtpPackets.headD { timestamp := 0, payload := [] } = p0 := by
        rw [hrtp]; rfl
      simp only [List.isEmpty_iff, hne, if_neg, hbase]
      cases cb (pkts.map (fun p =>
          { p with timestamp := (p.timestamp + p0.timestamp) % 2 ^ 32 })) with
      | error e => simp
      | ok v => simp
    cases hord with
    | inl hfr => simp [unitSubscriberFunc, hau, hfr, hdeliver]
    | inr hge =>
      by_cases hfr : st.firstReceived
      · simp [unitSubscriberFunc, hau, hfr, not_lt.mpr hge, hdeliver]
      · simp [unitSubscriberFunc, hau, hfr, hdeliver]
  · intro encoder cb st tu au hau henc
    by_cases hfr : st.firstReceived
    · by_cases hlt : tu.pts < st.lastPTS
      · simp [unitSubscriberFunc, hau, hfr, hlt]
      · simp [unitSubscriberFunc, hau, hfr, hlt, encodeAndDeliver, henc]
    · simp [unitSubscriberFunc, hau, hfr, encodeAndDeliver, henc]

/-- Witness for C7: a concrete encoder output of one packet at timestamp
10 and a first original packet at timestamp 100 delivers a batch with
timestamp 110, and an encoder producing zero packets delivers nothing. -/
theorem passthrough_timestamp_correction_witness :
    (unitSubscriberFunc (fun _ => .ok [{ timestamp := 10, payload := [] }]) (fun _ => .ok ())
        subscriberInit
        (.h264 { au := some [[5]], pts := 0,
                 rtpPackets := [{ timestamp := 100, payload := [] }] })).2.2 =
      some [{ timestamp := 110, payload := [] }] ∧
    (unitSubscriberFunc (fun _ => .ok []) (fun _ => .ok ()) subscriberInit
        (.h264 { au := some [[5]], pts := 0, rtpPackets := [] })).2.2 = none := by
  constructor
  · have h := passthrough_timestamp_correction.1
      (fun _ => .ok [{ timestamp := 10, payload := [] }]) (fun _ => .ok ()) subscriberInit
      { au := some [[5]], pts := 0, rtpPackets := [{ timestamp := 100, payload := [] }] }
      [[5]] [{ timestamp := 10, payload := [] }] { timestamp := 100, payload := [] } []
      rfl (Or.inl rfl) rfl (by decide) rfl
    rw [h]
    rfl
  · exact passthrough_timestamp_correction.2 (fun _ => .ok []) (fun _ => .ok ())
      subscriberInit { au := some [[5]], pts := 0, rtpPackets := [] } [[5]] rfl rfl

/-- Claim C8. A unit whose access unit is nil is a no-op for the
subscriber's encoding function, whatever its PTS and original packets:
no error, no packet batch, no callback invocation, and the subscriber
state (firstReceived, lastPTS) is left untouched. -/
theorem passthrough_nil_au_noop (encoder : H264Encoder) (cb : PacketCallback)
    (st : SubscriberState) (pts : Int) (rtpPkts : List RTPPkt) :
    unitSubscriberFunc encoder cb st
        (.h264 { au := none, pts := pts, rtpPackets := rtpPkts }) = (.ok (), st, none) := by
  rfl

-- The subscription registry (Unsubscribe).

/-- The registry rc.subAndCBByID as an association list from subscription
id to subscription (both opaque); a Go map has at most one entry per key. -/
abbrev SubRegistry := List (Nat × Nat)

/-- Unsubscribe: look the id up; unknown ids return the not-found error
with the registry untouched; otherwise the subscription is closed and its
entry deleted. -/
def unsubscribe (m : SubRegistry) (id : Nat) : Except Unit Unit × SubRegistry :=
  match m.lookup id with
  | none => (.error (), m)
  | some _ => (.ok (), m.filter (fun p => p.1 != id))

lemma lookup_filter_ne (m : SubRegistry) (id : Nat) :
    (m.filter (fun p => p.1 != id)).lookup id = none := by
  induction m with
  | nil => rfl
  | cons p m ih =>
    by_cases hp : p.1 = id
    · simp [List.filter, hp, ih]
    · have hne : (p.1 != id) = true := by simp [hp]
      have hbeq : (id == p.1) = false := by
        simp only [beq_eq_false_iff_ne]
        exact fun h => hp h.symm
      simp [List.filter, hne, List.lookup, hbeq, ih]

/-- Claim C9. Unsubscribe of an id not present in the registry returns the
not-found error and returns the registry unchanged (identical contents,
hence identical cardinality); and after a successful Unsubscribe the same
id is no longer present, so a second Unsubscribe of it fails with the
not-found error and leaves the shrunken registry unchanged. -/
theorem unsubscribe_unknown_id (m : SubRegistry) (id : Nat) :
    (m.lookup id = none → unsubscribe m id = (.error (), m)) ∧
    (∀ m2 : SubRegistry, unsubscribe m id = (.ok (), m2) →
      unsubscribe m2 id = (.error (), m2)) := by
  constructor
  · intro h
    simp [unsubscribe, h]
  · intro m2 h
    cases hl : m.lookup id with
    | none => simp [unsubscribe, hl] at h
    | some v =>
      have hm2 : m2 = m.filter (fun p => p.1 != id) := by
        simp [unsubscribe, hl] at h
        exact h.symm
      have : m2.lookup id = none := by
        rw [hm2]
        exact lookup_filter_ne m id
      simp [unsubscribe, this]

/-- Witness for C9: id 2 is unknown in the one-entry registry [(1, 5)], so
Unsubscribe fails and leaves it unchanged; removing id 1 succeeds, and a
second Unsubscribe of id 1 fails on the now-empty registry. -/
theorem unsubscribe_unknown_id_witness :
    unsubscribe [(1, 5)] 2 = (.error (), [(1, 5)]) ∧
    unsubscribe [] 1 = (.error (), []) :=
  ⟨(unsubscribe_unknown_id [(1, 5)] 2).1 rfl,
   (unsubscribe_unknown_id [(1, 5)] 1).2 [] rfl⟩

end Viamrtsp
